import Mathlib

/-!
Verification of the survey validation engine (`app/validation.py`).

The engine works on generic structured data (the Python values arriving from
JSON deserialization): strings, integers, booleans, lists, and dicts.  Python
dicts (3.7+) preserve insertion order and have unique keys, so a dict is
embedded as an ordered association list.
-/

/-- Generic structured value, as handled by the validators: the shapes a
deserialized JSON document can take in the Python code. -/
inductive Value where
  | str  : String → Value
  | int  : Int → Value
  | bool : Bool → Value
  | list : List Value → Value
  | dict : List (String × Value) → Value
deriving Repr

/-- `d[key]` on an embedded dict: the first binding of `key` (Python dicts
have unique keys, so first-match lookup coincides with dict access). -/
def vlookup : List (String × Value) → String → Option Value
  | [], _ => none
  | (k, v) :: rest, key => if k = key then some v else vlookup rest key

namespace ConfigurationValidator

/-- `ConfigurationValidator.TITLE_MAX_LENGTH` (all lengths inclusive). -/
def TITLE_MAX_LENGTH : Nat := 100

/-- `ConfigurationValidator.DESCRIPTION_MAX_LENGTH`. -/
def DESCRIPTION_MAX_LENGTH : Nat := 1000

/-- `ConfigurationValidator.REGEX_MAX_LENGTH`. -/
def REGEX_MAX_LENGTH : Nat := 100

/-- `ConfigurationValidator.HINT_MAX_LENGTH`. -/
def HINT_MAX_LENGTH : Nat := 100

/-- `type(x) == str and len(x) <= maxLen` applied to a dict access that the
key-list check has already guaranteed to succeed (modelled on the `Option`
result of the lookup; a missing key can only mean the check fails). -/
def strBounded (maxLen : Nat) : Option Value → Bool
  | some (.str s) => s.length ≤ maxLen
  | _ => false

/-- `value[k] == lit` where a non-string (or missing) entry compares unequal. -/
def strEquals (lit : String) : Option Value → Bool
  | some (.str s) => s = lit
  | _ => false

/-- `ConfigurationValidator._validate_type_email`.  The regex well-formedness
test `isregex` lives in `app/utils.py`; it is passed in as a parameter. -/
def validate_type_email (isregex : String → Bool) (value : Value) : Bool :=
  match value with
  | .dict kvs =>
      (kvs.map Prod.fst = ["type", "title", "description", "regex", "hint"] : Bool)
      && strEquals "email" (vlookup kvs "type")
      && strBounded TITLE_MAX_LENGTH (vlookup kvs "title")
      && strBounded DESCRIPTION_MAX_LENGTH (vlookup kvs "description")
      && (match vlookup kvs "regex" with
          | some (.str s) => (s.length ≤ REGEX_MAX_LENGTH : Bool) && isregex s
          | _ => false)
      && strBounded HINT_MAX_LENGTH (vlookup kvs "hint")
  | _ => false

/-- `ConfigurationValidator._validate_type_option`. -/
def validate_type_option (value : Value) : Bool :=
  match value with
  | .dict kvs =>
      (kvs.map Prod.fst = ["type", "title", "description", "mandatory"] : Bool)
      && strEquals "option" (vlookup kvs "type")
      && strBounded TITLE_MAX_LENGTH (vlookup kvs "title")
      && strBounded DESCRIPTION_MAX_LENGTH (vlookup kvs "description")
      && (match vlookup kvs "mandatory" with
          | some (.bool _) => true
          | _ => false)
  | _ => false

/-- `ConfigurationValidator._validate_type_radio`: subfields are checked one
by one against the option type check. -/
def validate_type_radio (value : Value) : Bool :=
  match value with
  | .dict kvs =>
      (kvs.map Prod.fst = ["type", "title", "description", "fields"] : Bool)
      && strEquals "radio" (vlookup kvs "type")
      && strBounded TITLE_MAX_LENGTH (vlookup kvs "title")
      && strBounded DESCRIPTION_MAX_LENGTH (vlookup kvs "description")
      && (match vlookup kvs "fields" with
          | some (.list fields) => fields.all validate_type_option
          | _ => false)
  | _ => false

/-- One element of the top-level `fields` list: the cerberus rule
`{'type': ['email', 'option', 'radio']}` passes when any of the three
custom type checks passes. -/
def top_field_check (isregex : String → Bool) (value : Value) : Bool :=
  validate_type_email isregex value
  || validate_type_option value
  || validate_type_radio value

/-- Cerberus `{'type': 'string', 'minlength': a, 'maxlength': b}`. -/
def checkStrRule (minLen maxLen : Nat) : Option Value → Bool
  | some (.str s) => minLen ≤ s.length && s.length ≤ maxLen
  | _ => false

/-- Cerberus `{'type': 'integer', 'min': 0}`. -/
def checkNonNegInt : Option Value → Bool
  | some (.int n) => 0 ≤ n
  | _ => false

/-- Cerberus `{'type': 'integer', 'allowed': [0, 1, 2]}`. -/
def checkMode : Option Value → Bool
  | some (.int n) => n = 0 || n = 1 || n = 2
  | _ => false

/-- Cerberus `{'type': 'list', 'schema': {'type': ['email','option','radio']}}`. -/
def checkFieldsList (isregex : String → Bool) : Option Value → Bool
  | some (.list fields) => fields.all (top_field_check isregex)
  | _ => false

/-- The keys of `ConfigurationValidator.SCHEMA`. -/
def topLevelKeys : List String :=
  ["admin_name", "survey_name", "title", "description",
   "start", "end", "mode", "fields"]

/-- `ConfigurationValidator.create().validate(doc)`: the document must be a
mapping, unknown keys are rejected (cerberus default), every schema key is
required (`require_all=True`), and each key's value must satisfy its rules
from `ConfigurationValidator.SCHEMA`. -/
def validate_configuration (isregex : String → Bool) (doc : Value) : Bool :=
  match doc with
  | .dict kvs =>
      (kvs.map Prod.fst).all (fun k => topLevelKeys.contains k)
      && topLevelKeys.all (fun k => (kvs.map Prod.fst).contains k)
      && checkStrRule 1 20 (vlookup kvs "admin_name")
      && checkStrRule 1 20 (vlookup kvs "survey_name")
      && checkStrRule 0 TITLE_MAX_LENGTH (vlookup kvs "title")
      && checkStrRule 0 DESCRIPTION_MAX_LENGTH (vlookup kvs "description")
      && checkNonNegInt (vlookup kvs "start")
      && checkNonNegInt (vlookup kvs "end")
      && checkMode (vlookup kvs "mode")
      && checkFieldsList isregex (vlookup kvs "fields")
  | _ => false

end ConfigurationValidator

namespace SubmissionValidator

/-- The `rules` list of `SubmissionValidator._generate_schema`: the attributes
that survive compilation into the submission schema. -/
def rules : List String :=
  ["min_chars", "max_chars", "min_select", "max_select", "mandatory", "regex"]

/-- `{str(i+1): e for i, e in enumerate(entries)}` starting at index `i`. -/
def index1From (i : Nat) : List Value → List (String × Value)
  | [] => []
  | v :: vs => (toString i, v) :: index1From (i + 1) vs

/-- 1-based positional keying of a list of compiled entries. -/
def index1 (vs : List Value) : List (String × Value) := index1From 1 vs

mutual

/-- The `if 'fields' in field.keys(): fs['schema'] = {...}` step of
`_generate_field_schema`: scan the field's bindings for `fields` (Python
dicts have unique keys, so the scan is dict membership plus access); absent
means no nested schema, a non-list value means the `enumerate` crashes
(`none`). -/
def schema_part : List (String × Value) → Option (List (String × Value))
  | [] => some []
  | (k, v) :: rest =>
      if k = "fields" then
        match v with
        | .list fields =>
            (generate_field_list fields).map
              (fun entries => [("schema", Value.dict (index1 entries))])
        | _ => none
      else schema_part rest

/-- `SubmissionValidator._generate_field_schema`: emit `type`, then the
nested `schema` when the field has subfields, then exactly the attributes
named in `rules`, in the field's own order.  Accessing `field['type']` on a
non-dict or a dict without `type` raises, hence `none`. -/
def generate_field_schema : Value → Option Value
  | .dict kvs =>
      match vlookup kvs "type" with
      | some t =>
          (schema_part kvs).map
            (fun sp =>
              Value.dict (("type", t) :: sp
                ++ kvs.filter (fun kv => rules.contains kv.1)))
      | none => none
  | _ => none

/-- Compile each field of a list in order. -/
def generate_field_list : List Value → Option (List Value)
  | [] => some []
  | f :: fs => do
      let e ← generate_field_schema f
      let es ← generate_field_list fs
      pure (e :: es)

end

/-- `SubmissionValidator._generate_schema`: key each compiled top-level field
by the string form of its 1-based position. -/
def generate_schema : Value → Option Value
  | .dict kvs =>
      match vlookup kvs "fields" with
      | some (.list fields) =>
          (generate_field_list fields).map (fun es => Value.dict (index1 es))
      | _ => none
  | _ => none

/-- Python `sum` over a list of dict values, as in `_count_selections`:
booleans count 1 or 0, integers count themselves, anything else raises a
`TypeError` (`none`). -/
def py_sum : List Value → Option Int
  | [] => some 0
  | v :: rest => do
      let n ← match v with
        | .bool b => some (if b then (1 : Int) else 0)
        | .int n => some n
        | _ => none
      let m ← py_sum rest
      pure (n + m)

/-- `SubmissionValidator._count_selections`: `sum(value.values())`; calling
`.values()` on a non-dict raises (`none`). -/
def count_selections : Value → Option Int
  | .dict kvs => py_sum (kvs.map Prod.snd)
  | _ => none

/-- `SubmissionValidator._validate_type_selection`: a dict all of whose
values are booleans. -/
def validate_type_selection : Value → Bool
  | .dict kvs => kvs.all (fun kv => match kv.2 with | .bool _ => true | _ => false)
  | _ => false

/-- `SubmissionValidator._validate_type_radio`: the selection structure check
plus the fixed cardinality `_count_selections(value) == 1`. -/
def validate_type_radio (value : Value) : Bool :=
  validate_type_selection value && count_selections value = some 1

/-- The `types_mapping` of `SubmissionValidator` plus its two custom type
checks: `email`/`text` are strings, `option` is a boolean, `selection` and
`radio` are the custom checks above. -/
def type_check : String → Value → Bool
  | "email", .str _ => true
  | "email", _ => false
  | "option", .bool _ => true
  | "option", _ => false
  | "text", .str _ => true
  | "text", _ => false
  | "selection", v => validate_type_selection v
  | "radio", v => validate_type_radio v
  | _, _ => false

/-- Python `len` (`TypeError` on unsized values). -/
def py_len : Value → Option Int
  | .str s => some s.length
  | .list l => some l.length
  | .dict kvs => some kvs.length
  | _ => none

/-- A schema attribute used as a numeric bound (`<`/`>` against the result of
`len` or `_count_selections`); Python compares bools as 0/1, anything else
raises (`none`). -/
def as_int : Value → Option Int
  | .int n => some n
  | .bool b => some (if b then 1 else 0)
  | _ => none

/-- Python truthiness, as tested by `if mandatory:`. -/
def truthy : Value → Bool
  | .bool b => b
  | .int n => n ≠ 0
  | .str s => s ≠ ""
  | .list l => !l.isEmpty
  | .dict kvs => !kvs.isEmpty

/-- The test of `_validate_mandatory`:
`type(value) is bool and not value or type(value) is str and value == ''`. -/
def mandatory_fails : Value → Bool
  | .bool b => !b
  | .str s => s = ""
  | _ => false

/-- One custom rule of `SubmissionValidator` applied to a field value: the
errors it records (`_error` calls), or `none` where the Python body raises.
`re_match` stands for the pattern matching of the cerberus built-in `regex`
rule (`re` module, outside this repository). -/
def apply_rule (re_match : String → String → Bool) :
    String → Value → Value → Option (List String)
  | "min_chars", rv, v => do
      let l ← py_len v
      let m ← as_int rv
      pure (if l < m then [s!"must be at least {m} characters long"] else [])
  | "max_chars", rv, v => do
      let l ← py_len v
      let m ← as_int rv
      pure (if l > m then [s!"must be at most {m} characters long"] else [])
  | "min_select", rv, v => do
      let c ← count_selections v
      let m ← as_int rv
      pure (if c < m then [s!"must select at least {m} options"] else [])
  | "max_select", rv, v => do
      let c ← count_selections v
      let m ← as_int rv
      pure (if c > m then [s!"must select at most {m} options"] else [])
  | "mandatory", rv, v =>
      some (if truthy rv then
              if mandatory_fails v then ["this field is mandatory"] else []
            else [])
  | "regex", rv, v =>
      match v with
      | .str s =>
          match rv with
          | .str pat =>
              some (if re_match pat s then [] else [s!"value does not match regex {pat}"])
          | _ => none
      | _ => some []
  | _, _, _ => some []

/-- Run every custom rule attribute present in the compiled field schema, in
order, collecting each rule's errors (attributes that are not custom rules —
`type` itself and the nested `schema` of grouping fields — contribute no
errors at this field's own level). -/
def apply_rules (re_match : String → String → Bool) :
    List (String × Value) → Value → Option (List (List String))
  | [], _ => some []
  | kv :: rest, v => do
      let e ← if rules.contains kv.1 then apply_rule re_match kv.1 kv.2 v
              else some []
      let es ← apply_rules re_match rest v
      pure (e :: es)

/-- Validation of one submission value against its compiled field schema, at
the field's own level: cerberus dispatches on the `type` discriminant first
(a type failure suppresses the remaining rules), then applies each rule
attribute present in the field schema in order.  The nested `schema` rule of
grouping fields addresses the subfields, not this field, and is validated
separately against the nested schema, so it contributes no errors here. -/
def validate_field (re_match : String → String → Bool)
    (fs : List (String × Value)) (v : Value) : Option (List String) :=
  match vlookup fs "type" with
  | some (.str t) =>
      if type_check t v then (apply_rules re_match fs v).map List.flatten
      else some [s!"must be of {t} type"]
  | _ => none

end SubmissionValidator

namespace Spec

open SubmissionValidator in
mutual

/-- Written from the claim (C2): the compiled entry for a configuration field
carries the field's `type` discriminant, then — for a field with subfields —
a nested `schema` keying each compiled subfield by the string form of its
1-based position, then exactly those of
`min_chars, max_chars, min_select, max_select, mandatory, regex` present on
the field, in the field's own order; `title`, `description` and `hint` are
dropped; no field is dropped, renamed, or reordered.  Total by construction:
on shapes that cannot occur in a validated configuration it returns a dummy
entry. -/
def compile_field : Value → Value
  | .dict kvs =>
      .dict (("type", (vlookup kvs "type").getD (.dict []))
        :: (compile_nested kvs ++ kvs.filter (fun kv => rules.contains kv.1)))
  | v => v

/-- The nested part of the claimed compiled entry: present exactly when the
field carries a `fields` attribute, keyed 1-based under the parent. -/
def compile_nested : List (String × Value) → List (String × Value)
  | [] => []
  | (k, v) :: rest =>
      if k = "fields" then
        match v with
        | .list fields => [("schema", Value.dict (index1 (compile_list fields)))]
        | _ => []
      else compile_nested rest

/-- Claimed compilation of a field list, in order, no field dropped. -/
def compile_list : List Value → List Value
  | [] => []
  | f :: fs => compile_field f :: compile_list fs

end

end Spec

namespace Helpers

open ConfigurationValidator SubmissionValidator

/-- Peel one binding off an association list whose key list is known. -/
theorem map_fst_cons {kvs : List (String × Value)} {k : String} {ks : List String}
    (h : kvs.map Prod.fst = k :: ks) :
    ∃ v rest, kvs = (k, v) :: rest ∧ rest.map Prod.fst = ks := by
  cases kvs with
  | nil => simp at h
  | cons a t =>
      obtain ⟨k', v⟩ := a
      simp only [List.map_cons, List.cons.injEq] at h
      exact ⟨v, t, by rw [h.1], h.2⟩

theorem strEquals_true {lit : String} {ov : Option Value}
    (h : strEquals lit ov = true) : ov = some (.str lit) := by
  match ov with
  | none => simp [strEquals] at h
  | some (.str s) => simp [strEquals] at h; rw [h]
  | some (.int _) | some (.bool _) | some (.list _) | some (.dict _) =>
      simp [strEquals] at h

theorem strBounded_true {maxLen : Nat} {ov : Option Value}
    (h : strBounded maxLen ov = true) :
    ∃ s, ov = some (.str s) ∧ s.length ≤ maxLen := by
  match ov with
  | none => simp [strBounded] at h
  | some (.str s) => simp [strBounded] at h; exact ⟨s, rfl, h⟩
  | some (.int _) | some (.bool _) | some (.list _) | some (.dict _) =>
      simp [strBounded] at h

/-- Full characterization of a field accepted by
`ConfigurationValidator._validate_type_option`. -/
theorem option_decomp {v : Value} (h : validate_type_option v = true) :
    ∃ (t d : String) (m : Bool),
      v = .dict [("type", .str "option"), ("title", .str t),
                 ("description", .str d), ("mandatory", .bool m)]
      ∧ t.length ≤ TITLE_MAX_LENGTH ∧ d.length ≤ DESCRIPTION_MAX_LENGTH := by
  match v with
  | .str _ | .int _ | .bool _ | .list _ => simp [validate_type_option] at h
  | .dict kvs =>
    rw [validate_type_option] at h
    simp only [Bool.and_eq_true, decide_eq_true_eq] at h
    obtain ⟨⟨⟨⟨hkeys, hty⟩, hti⟩, hde⟩, hma⟩ := h
    obtain ⟨v1, r1, rfl, hk1⟩ := map_fst_cons hkeys
    obtain ⟨v2, r2, rfl, hk2⟩ := map_fst_cons hk1
    obtain ⟨v3, r3, rfl, hk3⟩ := map_fst_cons hk2
    obtain ⟨v4, r4, rfl, hk4⟩ := map_fst_cons hk3
    rw [List.map_eq_nil_iff] at hk4
    subst hk4
    rw [show vlookup [("type", v1), ("title", v2), ("description", v3),
          ("mandatory", v4)] "type" = some v1 from rfl] at hty
    rw [show vlookup [("type", v1), ("title", v2), ("description", v3),
          ("mandatory", v4)] "title" = some v2 from rfl] at hti
    rw [show vlookup [("type", v1), ("title", v2), ("description", v3),
          ("mandatory", v4)] "description" = some v3 from rfl] at hde
    rw [show vlookup [("type", v1), ("title", v2), ("description", v3),
          ("mandatory", v4)] "mandatory" = some v4 from rfl] at hma
    obtain rfl : v1 = .str "option" := by
      have := strEquals_true hty; injection this
    obtain ⟨t, rfl, hlt⟩ : ∃ s, v2 = .str s ∧ s.length ≤ TITLE_MAX_LENGTH := by
      obtain ⟨s, hs, hl⟩ := strBounded_true hti
      exact ⟨s, by injection hs, hl⟩
    obtain ⟨d, rfl, hld⟩ : ∃ s, v3 = .str s ∧ s.length ≤ DESCRIPTION_MAX_LENGTH := by
      obtain ⟨s, hs, hl⟩ := strBounded_true hde
      exact ⟨s, by injection hs, hl⟩
    obtain ⟨m, rfl⟩ : ∃ b, v4 = .bool b := by
      match v4 with
      | .bool b => exact ⟨b, rfl⟩
      | .str _ | .int _ | .list _ | .dict _ => simp at hma
    exact ⟨t, d, m, rfl, hlt, hld⟩

/-- Full characterization of a field accepted by
`ConfigurationValidator._validate_type_email`. -/
theorem email_decomp {isregex : String → Bool} {v : Value}
    (h : validate_type_email isregex v = true) :
    ∃ (t d r hi : String),
      v = .dict [("type", .str "email"), ("title", .str t),
                 ("description", .str d), ("regex", .str r), ("hint", .str hi)]
      ∧ t.length ≤ TITLE_MAX_LENGTH ∧ d.length ≤ DESCRIPTION_MAX_LENGTH
      ∧ r.length ≤ REGEX_MAX_LENGTH ∧ isregex r = true
      ∧ hi.length ≤ HINT_MAX_LENGTH := by
  match v with
  | .str _ | .int _ | .bool _ | .list _ => simp [validate_type_email] at h
  | .dict kvs =>
    rw [validate_type_email] at h
    simp only [Bool.and_eq_true, decide_eq_true_eq] at h
    obtain ⟨⟨⟨⟨⟨hkeys, hty⟩, hti⟩, hde⟩, hre⟩, hhi⟩ := h
    obtain ⟨v1, r1, rfl, hk1⟩ := map_fst_cons hkeys
    obtain ⟨v2, r2, rfl, hk2⟩ := map_fst_cons hk1
    obtain ⟨v3, r3, rfl, hk3⟩ := map_fst_cons hk2
    obtain ⟨v4, r4, rfl, hk4⟩ := map_fst_cons hk3
    obtain ⟨v5, r5, rfl, hk5⟩ := map_fst_cons hk4
    rw [List.map_eq_nil_iff] at hk5
    subst hk5
    have e1 : vlookup [("type", v1), ("title", v2), ("description", v3),
        ("regex", v4), ("hint", v5)] "type" = some v1 := rfl
    have e2 : vlookup [("type", v1), ("title", v2), ("description", v3),
        ("regex", v4), ("hint", v5)] "title" = some v2 := rfl
    have e3 : vlookup [("type", v1), ("title", v2), ("description", v3),
        ("regex", v4), ("hint", v5)] "description" = some v3 := rfl
    have e4 : vlookup [("type", v1), ("title", v2), ("description", v3),
        ("regex", v4), ("hint", v5)] "regex" = some v4 := rfl
    have e5 : vlookup [("type", v1), ("title", v2), ("description", v3),
        ("regex", v4), ("hint", v5)] "hint" = some v5 := rfl
    rw [e1] at hty; rw [e2] at hti; rw [e3] at hde; rw [e4] at hre; rw [e5] at hhi
    obtain rfl : v1 = .str "email" := by
      have := strEquals_true hty; injection this
    obtain ⟨t, rfl, hlt⟩ : ∃ s, v2 = .str s ∧ s.length ≤ TITLE_MAX_LENGTH := by
      obtain ⟨s, hs, hl⟩ := strBounded_true hti
      exact ⟨s, by injection hs, hl⟩
    obtain ⟨d, rfl, hld⟩ : ∃ s, v3 = .str s ∧ s.length ≤ DESCRIPTION_MAX_LENGTH := by
      obtain ⟨s, hs, hl⟩ := strBounded_true hde
      exact ⟨s, by injection hs, hl⟩
    obtain ⟨hi, rfl, hlh⟩ : ∃ s, v5 = .str s ∧ s.length ≤ HINT_MAX_LENGTH := by
      obtain ⟨s, hs, hl⟩ := strBounded_true hhi
      exact ⟨s, by injection hs, hl⟩
    obtain ⟨r, rfl, hlr, hir⟩ :
        ∃ s, v4 = .str s ∧ s.length ≤ REGEX_MAX_LENGTH ∧ isregex s = true := by
      match v4 with
      | .str s =>
          simp only [Bool.and_eq_true, decide_eq_true_eq] at hre
          exact ⟨s, rfl, hre.1, hre.2⟩
      | .int _ | .bool _ | .list _ | .dict _ => simp at hre
    exact ⟨t, d, r, hi, rfl, hlt, hld, hlr, hir, hlh⟩

/-- Full characterization of a field accepted by
`ConfigurationValidator._validate_type_radio`. -/
theorem radio_decomp {v : Value}
    (h : ConfigurationValidator.validate_type_radio v = true) :
    ∃ (t d : String) (fields : List Value),
      v = .dict [("type", .str "radio"), ("title", .str t),
                 ("description", .str d), ("fields", .list fields)]
      ∧ t.length ≤ TITLE_MAX_LENGTH ∧ d.length ≤ DESCRIPTION_MAX_LENGTH
      ∧ ∀ f ∈ fields, validate_type_option f = true := by
  match v with
  | .str _ | .int _ | .bool _ | .list _ =>
      simp [ConfigurationValidator.validate_type_radio] at h
  | .dict kvs =>
    rw [ConfigurationValidator.validate_type_radio] at h
    simp only [Bool.and_eq_true, decide_eq_true_eq] at h
    obtain ⟨⟨⟨⟨hkeys, hty⟩, hti⟩, hde⟩, hfs⟩ := h
    obtain ⟨v1, r1, rfl, hk1⟩ := map_fst_cons hkeys
    obtain ⟨v2, r2, rfl, hk2⟩ := map_fst_cons hk1
    obtain ⟨v3, r3, rfl, hk3⟩ := map_fst_cons hk2
    obtain ⟨v4, r4, rfl, hk4⟩ := map_fst_cons hk3
    rw [List.map_eq_nil_iff] at hk4
    subst hk4
    have e1 : vlookup [("type", v1), ("title", v2), ("description", v3),
        ("fields", v4)] "type" = some v1 := rfl
    have e2 : vlookup [("type", v1), ("title", v2), ("description", v3),
        ("fields", v4)] "title" = some v2 := rfl
    have e3 : vlookup [("type", v1), ("title", v2), ("description", v3),
        ("fields", v4)] "description" = some v3 := rfl
    have e4 : vlookup [("type", v1), ("title", v2), ("description", v3),
        ("fields", v4)] "fields" = some v4 := rfl
    rw [e1] at hty; rw [e2] at hti; rw [e3] at hde; rw [e4] at hfs
    obtain rfl : v1 = .str "radio" := by
      have := strEquals_true hty; injection this
    obtain ⟨t, rfl, hlt⟩ : ∃ s, v2 = .str s ∧ s.length ≤ TITLE_MAX_LENGTH := by
      obtain ⟨s, hs, hl⟩ := strBounded_true hti
      exact ⟨s, by injection hs, hl⟩
    obtain ⟨d, rfl, hld⟩ : ∃ s, v3 = .str s ∧ s.length ≤ DESCRIPTION_MAX_LENGTH := by
      obtain ⟨s, hs, hl⟩ := strBounded_true hde
      exact ⟨s, by injection hs, hl⟩
    obtain ⟨fields, rfl, hall⟩ :
        ∃ fs, v4 = .list fs ∧ ∀ f ∈ fs, validate_type_option f = true := by
      match v4 with
      | .list fs =>
          rw [List.all_eq_true] at hfs
          exact ⟨fs, rfl, hfs⟩
      | .str _ | .int _ | .bool _ | .dict _ => simp at hfs
    exact ⟨t, d, fields, rfl, hlt, hld, hall⟩

/-- Compiling a canonical radio field: `type`, then the nested `schema`. -/
theorem gfs_radio_canonical (t d : String) (fields es : List Value)
    (h : generate_field_list fields = some es) :
    generate_field_schema
      (.dict [("type", .str "radio"), ("title", .str t),
              ("description", .str d), ("fields", .list fields)])
    = some (.dict [("type", .str "radio"), ("schema", .dict (index1 es))]) := by
  rw [show generate_field_schema
        (.dict [("type", .str "radio"), ("title", .str t),
                ("description", .str d), ("fields", .list fields)])
      = ((generate_field_list fields).map
          (fun entries => [("schema", Value.dict (index1 entries))])).map
          (fun sp => Value.dict (("type", Value.str "radio") :: sp ++ [])) from rfl]
  rw [h]
  rfl

/-- Compiling a list of validated option fields succeeds and agrees with the
claimed compilation. -/
theorem gfl_all_option {fields : List Value}
    (h : ∀ f ∈ fields, validate_type_option f = true) :
    generate_field_list fields = some (Spec.compile_list fields) := by
  induction fields with
  | nil => rfl
  | cons f fs ih =>
      obtain ⟨t, d, m, rfl, -, -⟩ := option_decomp (h f (List.mem_cons_self f fs))
      have ih2 := ih (fun g hg => h g (List.mem_cons_of_mem _ hg))
      rw [show generate_field_list
            (Value.dict [("type", .str "option"), ("title", .str t),
                         ("description", .str d), ("mandatory", .bool m)] :: fs)
          = (generate_field_list fs).bind
              (fun es => some (Value.dict [("type", .str "option"),
                                           ("mandatory", .bool m)] :: es)) from rfl]
      rw [ih2]
      rfl

/-- A field accepted anywhere in the top-level `fields` list compiles exactly
as the claim describes. -/
theorem gfs_spec_field {isregex : String → Bool} {f : Value}
    (h : top_field_check isregex f = true) :
    generate_field_schema f = some (Spec.compile_field f) := by
  rw [top_field_check, Bool.or_eq_true, Bool.or_eq_true] at h
  rcases h with (he | ho) | hr
  · obtain ⟨t, d, r, hi, rfl, -⟩ := email_decomp he
    rfl
  · obtain ⟨t, d, m, rfl, -, -⟩ := option_decomp ho
    rfl
  · obtain ⟨t, d, fields, rfl, -, -, hall⟩ := radio_decomp hr
    rw [gfs_radio_canonical t d fields _ (gfl_all_option hall)]
    rfl

/-- Compiling a list of fields that all pass the top-level kind check. -/
theorem gfl_spec {isregex : String → Bool} {fields : List Value}
    (h : ∀ f ∈ fields, top_field_check isregex f = true) :
    generate_field_list fields = some (Spec.compile_list fields) := by
  induction fields with
  | nil => rfl
  | cons f fs ih =>
      have ih2 := ih (fun g hg => h g (List.mem_cons_of_mem _ hg))
      rw [show generate_field_list (f :: fs)
          = (generate_field_schema f).bind
              (fun e => (generate_field_list fs).bind
                (fun es => some (e :: es))) from rfl]
      rw [gfs_spec_field (h f (List.mem_cons_self f fs)), ih2]
      rfl

/-- A validated configuration is a dict whose `fields` entry is a list, every
element of which passes the top-level kind check. -/
theorem config_fields {isregex : String → Bool} {c : Value}
    (h : validate_configuration isregex c = true) :
    ∃ kvs fields, c = .dict kvs ∧ vlookup kvs "fields" = some (.list fields)
      ∧ ∀ f ∈ fields, top_field_check isregex f = true := by
  match c with
  | .str _ | .int _ | .bool _ | .list _ => simp [validate_configuration] at h
  | .dict kvs =>
    rw [validate_configuration] at h
    simp only [Bool.and_eq_true] at h
    have hfl := h.2
    match hv : vlookup kvs "fields" with
    | none => rw [hv] at hfl; simp [checkFieldsList] at hfl
    | some (.str _) | some (.int _) | some (.bool _) | some (.dict _) =>
        rw [hv] at hfl; simp [checkFieldsList] at hfl
    | some (.list fields) =>
        rw [hv] at hfl
        rw [checkFieldsList] at hfl
        rw [List.all_eq_true] at hfl
        exact ⟨kvs, fields, rfl, hv, hfl⟩

/-- `generate_schema` on a dict whose `fields` entry is known. -/
theorem generate_schema_dict {kvs : List (String × Value)} {fields : List Value}
    (hv : vlookup kvs "fields" = some (.list fields)) :
    generate_schema (.dict kvs)
    = (generate_field_list fields).map (fun es => Value.dict (index1 es)) := by
  rw [generate_schema, hv]

/-- A canonical-order option field with in-bound values is accepted. -/
theorem option_accepts (t d : String) (m : Bool)
    (ht : t.length ≤ TITLE_MAX_LENGTH) (hd : d.length ≤ DESCRIPTION_MAX_LENGTH) :
    validate_type_option
      (.dict [("type", .str "option"), ("title", .str t),
              ("description", .str d), ("mandatory", .bool m)]) = true := by
  rw [validate_type_option]
  simp [vlookup, strEquals, strBounded, ht, hd]

/-- A canonical-order email field with in-bound values and a regex accepted
by `isregex` passes the email check. -/
theorem email_accepts (isregex : String → Bool) (t d r hi : String)
    (ht : t.length ≤ TITLE_MAX_LENGTH) (hd : d.length ≤ DESCRIPTION_MAX_LENGTH)
    (hr : r.length ≤ REGEX_MAX_LENGTH) (hir : isregex r = true)
    (hh : hi.length ≤ HINT_MAX_LENGTH) :
    validate_type_email isregex
      (.dict [("type", .str "email"), ("title", .str t), ("description", .str d),
              ("regex", .str r), ("hint", .str hi)]) = true := by
  rw [validate_type_email]
  simp [vlookup, strEquals, strBounded, ht, hd, hr, hir, hh]

end Helpers

/-- The number of `true` entries of a selection mapping: the selection count
the claims speak about. -/
def trueCount : List (String × Value) → Int
  | [] => 0
  | kv :: rest => (match kv.2 with | .bool true => (1 : Int) | _ => 0) + trueCount rest

namespace Helpers

open ConfigurationValidator SubmissionValidator

/-- A mapping all of whose values are booleans passes the selection structure
check. -/
theorem sel_structure {kvs : List (String × Value)}
    (h : ∀ kv ∈ kvs, ∃ b, kv.2 = Value.bool b) :
    validate_type_selection (.dict kvs) = true := by
  rw [validate_type_selection, List.all_eq_true]
  intro kv hkv
  obtain ⟨b, hb⟩ := h kv hkv
  rw [hb]

/-- On a mapping of booleans, `_count_selections` is the number of `true`
entries. -/
theorem count_eq {kvs : List (String × Value)}
    (h : ∀ kv ∈ kvs, ∃ b, kv.2 = Value.bool b) :
    count_selections (.dict kvs) = some (trueCount kvs) := by
  rw [count_selections]
  induction kvs with
  | nil => rfl
  | cons kv rest ih =>
      obtain ⟨b, hb⟩ := h kv (List.mem_cons_self kv rest)
      have ih2 := ih (fun g hg => h g (List.mem_cons_of_mem _ hg))
      rw [List.map_cons, hb]
      rw [show py_sum (Value.bool b :: List.map Prod.snd rest)
          = (py_sum (List.map Prod.snd rest)).bind
              (fun m => some ((if b then (1 : Int) else 0) + m)) from rfl]
      rw [ih2, trueCount, hb]
      cases b <;> rfl

/-- Unfolding one field validation once the `type` discriminant is known. -/
theorem validate_field_eq (rm : String → String → Bool)
    (fs : List (String × Value)) (v : Value) (t : String)
    (hty : vlookup fs "type" = some (.str t)) :
    validate_field rm fs v
    = if type_check t v then (apply_rules rm fs v).map List.flatten
      else some [s!"must be of {t} type"] := by
  unfold validate_field
  rw [hty]

end Helpers

/-- An example option configuration field. -/
def option_example (title : String) : Value :=
  .dict [("type", .str "option"), ("title", .str title),
         ("description", .str ""), ("mandatory", .bool false)]

/-- An example radio configuration field with two option subfields. -/
def radio_example : Value :=
  .dict [("type", .str "radio"), ("title", .str "R"), ("description", .str ""),
         ("fields", .list [option_example "A", option_example "B"])]

/-- An example full survey configuration. -/
def cfg_example : Value :=
  .dict [("admin_name", .str "ada"), ("survey_name", .str "s1"),
         ("title", .str "T"), ("description", .str "D"),
         ("start", .int 0), ("end", .int 1), ("mode", .int 0),
         ("fields", .list
           [.dict [("type", .str "email"), ("title", .str "E"),
                   ("description", .str ""), ("regex", .str ".*"),
                   ("hint", .str "h")],
            radio_example])]

/-- C2: for every configuration `c` accepted by `validate_configuration`,
compilation never fails: `generate_schema c` returns a schema with exactly one
entry per field of `c`, keyed by the string form of the field's 1-based
position, each entry being exactly `Spec.compile_field` of the field — the
field's `type` discriminant, for a grouping field the nested subfield schema
keyed 1-based under the parent, and exactly those of `min_chars`, `max_chars`,
`min_select`, `max_select`, `mandatory`, `regex` present on the field, with
`title`, `description`, `hint` dropped and no field dropped, renamed, or
reordered. -/
theorem claim_C2 (isregex : String → Bool) (c : Value)
    (h : ConfigurationValidator.validate_configuration isregex c = true) :
    ∃ kvs fields, c = .dict kvs
      ∧ vlookup kvs "fields" = some (.list fields)
      ∧ SubmissionValidator.generate_schema c
        = some (.dict (SubmissionValidator.index1 (Spec.compile_list fields))) := by
  obtain ⟨kvs, fields, rfl, hv, hall⟩ := Helpers.config_fields h
  refine ⟨kvs, fields, rfl, hv, ?_⟩
  rw [Helpers.generate_schema_dict hv, Helpers.gfl_spec hall]
  rfl

/-- Witness for C2 at a concrete validated configuration. -/
theorem claim_C2_witness :
    ConfigurationValidator.validate_configuration (fun _ => true) cfg_example = true
    ∧ ∃ kvs fields, cfg_example = .dict kvs
      ∧ vlookup kvs "fields" = some (.list fields)
      ∧ SubmissionValidator.generate_schema cfg_example
        = some (.dict (SubmissionValidator.index1 (Spec.compile_list fields))) :=
  ⟨by decide, claim_C2 (fun _ => true) cfg_example (by decide)⟩

/-- C9: a configuration whose per-field structural and bound checks all pass
is accepted by `validate_configuration` whatever the relative order of the
`start` and `end` integers: each is only required to be a non-negative
integer, and no `start ≤ end` hypothesis appears below. -/
theorem claim_C9 (isregex : String → Bool) (an sn ti de : String)
    (s e m : Int) (fields : List Value)
    (han : 1 ≤ an.length ∧ an.length ≤ 20)
    (hsn : 1 ≤ sn.length ∧ sn.length ≤ 20)
    (hti : ti.length ≤ 100) (hde : de.length ≤ 1000)
    (hs : 0 ≤ s) (he : 0 ≤ e)
    (hm : m = 0 ∨ m = 1 ∨ m = 2)
    (hf : ∀ f ∈ fields, ConfigurationValidator.top_field_check isregex f = true) :
    ConfigurationValidator.validate_configuration isregex
      (.dict [("admin_name", .str an), ("survey_name", .str sn),
              ("title", .str ti), ("description", .str de),
              ("start", .int s), ("end", .int e), ("mode", .int m),
              ("fields", .list fields)]) = true := by
  rw [ConfigurationValidator.validate_configuration]
  simp [ConfigurationValidator.checkStrRule, ConfigurationValidator.checkNonNegInt,
    ConfigurationValidator.checkMode, ConfigurationValidator.checkFieldsList,
    ConfigurationValidator.topLevelKeys, vlookup, List.all_eq_true,
    han.1, han.2, hsn.1, hsn.2, hti, hde, hs, he, hf]
  rcases hm with h | h | h <;>
    simp [h, ConfigurationValidator.TITLE_MAX_LENGTH,
      ConfigurationValidator.DESCRIPTION_MAX_LENGTH, hti, hde] <;>
    exact hf

/-- Witness for C9: a concrete configuration with `end < start` is accepted. -/
theorem claim_C9_witness :
    ConfigurationValidator.validate_configuration (fun _ => true)
      (.dict [("admin_name", .str "a"), ("survey_name", .str "s"),
              ("title", .str ""), ("description", .str ""),
              ("start", .int 5), ("end", .int 3), ("mode", .int 0),
              ("fields", .list [])]) = true :=
  claim_C9 (fun _ => true) "a" "s" "" "" 5 3 0 []
    (by decide) (by decide) (by decide) (by decide) (by decide) (by decide)
    (Or.inl rfl) (fun f hf => absurd hf (List.not_mem_nil f))

/-- C10: a radio configuration field whose `fields` list is empty passes the
configuration validator's radio check (the per-subfield option check is
vacuous over the empty list), and compiles to a schema entry of type `radio`
whose nested `schema` mapping is empty. -/
theorem claim_C10 (t d : String)
    (ht : t.length ≤ ConfigurationValidator.TITLE_MAX_LENGTH)
    (hd : d.length ≤ ConfigurationValidator.DESCRIPTION_MAX_LENGTH) :
    ConfigurationValidator.validate_type_radio
      (.dict [("type", .str "radio"), ("title", .str t),
              ("description", .str d), ("fields", .list [])]) = true
    ∧ SubmissionValidator.generate_field_schema
      (.dict [("type", .str "radio"), ("title", .str t),
              ("description", .str d), ("fields", .list [])])
      = some (.dict [("type", .str "radio"), ("schema", .dict [])]) := by
  constructor
  · rw [ConfigurationValidator.validate_type_radio]
    simp [vlookup, ConfigurationValidator.strEquals,
      ConfigurationValidator.strBounded, ht, hd]
  · exact Helpers.gfs_radio_canonical t d [] [] rfl

/-- Witness for C10 at concrete title and description. -/
theorem claim_C10_witness :
    ConfigurationValidator.validate_type_radio
      (.dict [("type", .str "radio"), ("title", .str "R"),
              ("description", .str ""), ("fields", .list [])]) = true
    ∧ SubmissionValidator.generate_field_schema
      (.dict [("type", .str "radio"), ("title", .str "R"),
              ("description", .str ""), ("fields", .list [])])
      = some (.dict [("type", .str "radio"), ("schema", .dict [])]) :=
  claim_C10 "R" "" (by decide) (by decide)

/-- C4: for every radio field accepted by the configuration validator, its
compiled schema entry, and every submission value for it that is a mapping of
subfield keys to booleans, field validation rejects (with the radio type
failure, the code's rendering of the cardinality violation) exactly when the
number of `true` entries is 0 or at least 2, and accepts when it is exactly 1,
whatever the number of subfields; the compiled radio entry carries no
`min_select`/`max_select`, so no configurable bound takes part. -/
theorem claim_C4 (rm : String → String → Bool) (r : Value)
    (fs kvs : List (String × Value))
    (h1 : ConfigurationValidator.validate_type_radio r = true)
    (h2 : SubmissionValidator.generate_field_schema r = some (.dict fs))
    (h3 : ∀ kv ∈ kvs, ∃ b, kv.2 = Value.bool b) :
    SubmissionValidator.validate_field rm fs (.dict kvs)
    = some (if trueCount kvs = 1 then [] else ["must be of radio type"]) := by
  obtain ⟨t, d, fields, rfl, -, -, hall⟩ := Helpers.radio_decomp h1
  rw [Helpers.gfs_radio_canonical t d fields _ (Helpers.gfl_all_option hall)] at h2
  simp only [Option.some.injEq, Value.dict.injEq] at h2
  subst h2
  rw [Helpers.validate_field_eq rm
    [("type", Value.str "radio"),
     ("schema", Value.dict (SubmissionValidator.index1 (Spec.compile_list fields)))]
    (.dict kvs) "radio" rfl]
  by_cases hc : trueCount kvs = 1
  · have hb : SubmissionValidator.type_check "radio" (Value.dict kvs) = true := by
      show SubmissionValidator.validate_type_radio (Value.dict kvs) = true
      rw [SubmissionValidator.validate_type_radio, Helpers.sel_structure h3,
        Helpers.count_eq h3]
      simp [hc]
    rw [hb, if_pos rfl, if_pos hc]
    rfl
  · have hb : SubmissionValidator.type_check "radio" (Value.dict kvs) = false := by
      show SubmissionValidator.validate_type_radio (Value.dict kvs) = false
      rw [SubmissionValidator.validate_type_radio, Helpers.sel_structure h3,
        Helpers.count_eq h3]
      simp [hc]
    rw [hb, if_neg Bool.false_ne_true, if_neg hc]
    rfl

/-- Witness for C4: the compiled two-option radio of `radio_example`, with a
two-selection submission (rejected) versus the count-1 condition. -/
theorem claim_C4_witness :
    SubmissionValidator.validate_field (fun _ _ => true)
      [("type", .str "radio"),
       ("schema", .dict
         [("1", .dict [("type", .str "option"), ("mandatory", .bool false)]),
          ("2", .dict [("type", .str "option"), ("mandatory", .bool false)])])]
      (.dict [("1", .bool true), ("2", .bool true)])
    = some (if trueCount [("1", Value.bool true), ("2", Value.bool true)] = 1
            then [] else ["must be of radio type"]) :=
  claim_C4 (fun _ _ => true) radio_example _ _
    (by decide) (by rfl)
    (by intro kv hkv
        simp [List.mem_cons] at hkv
        rcases hkv with h | h <;> exact ⟨_, by rw [h]⟩)

/-- C5: for a selection field compiled with integer bounds `min_select = a`
and `max_select = b`, and a submission value that is a mapping to booleans,
the per-rule errors are exactly the bound violations, so the field passes
validation precisely when the count of `true` entries lies in `[a, b]`. -/
theorem claim_C5 (rm : String → String → Bool) (a b : Int)
    (kvs : List (String × Value))
    (h : ∀ kv ∈ kvs, ∃ x, kv.2 = Value.bool x) :
    SubmissionValidator.validate_field rm
      [("type", .str "selection"), ("min_select", .int a), ("max_select", .int b)]
      (.dict kvs)
    = some ((if trueCount kvs < a then [s!"must select at least {a} options"] else [])
        ++ (if trueCount kvs > b then [s!"must select at most {b} options"] else []))
    ∧ (SubmissionValidator.validate_field rm
        [("type", .str "selection"), ("min_select", .int a), ("max_select", .int b)]
        (.dict kvs) = some []
      ↔ a ≤ trueCount kvs ∧ trueCount kvs ≤ b) := by
  have e1 : SubmissionValidator.apply_rule rm "min_select" (.int a) (.dict kvs)
      = some (if trueCount kvs < a
              then [s!"must select at least {a} options"] else []) := by
    rw [show SubmissionValidator.apply_rule rm "min_select" (.int a) (.dict kvs)
        = (SubmissionValidator.count_selections (.dict kvs)).bind
            (fun c => some (if c < a
              then [s!"must select at least {a} options"] else [])) from rfl]
    rw [Helpers.count_eq h]
    rfl
  have e2 : SubmissionValidator.apply_rule rm "max_select" (.int b) (.dict kvs)
      = some (if trueCount kvs > b
              then [s!"must select at most {b} options"] else []) := by
    rw [show SubmissionValidator.apply_rule rm "max_select" (.int b) (.dict kvs)
        = (SubmissionValidator.count_selections (.dict kvs)).bind
            (fun c => some (if c > b
              then [s!"must select at most {b} options"] else [])) from rfl]
    rw [Helpers.count_eq h]
    rfl
  have heq : SubmissionValidator.validate_field rm
      [("type", .str "selection"), ("min_select", .int a), ("max_select", .int b)]
      (.dict kvs)
    = some ((if trueCount kvs < a then [s!"must select at least {a} options"] else [])
        ++ (if trueCount kvs > b then [s!"must select at most {b} options"] else [])) := by
    rw [Helpers.validate_field_eq rm
      [("type", Value.str "selection"), ("min_select", Value.int a),
       ("max_select", Value.int b)] (.dict kvs) "selection" rfl]
    have hb : SubmissionValidator.type_check "selection" (Value.dict kvs) = true :=
      Helpers.sel_structure h
    rw [hb, if_pos rfl]
    rw [show SubmissionValidator.apply_rules rm
          [("type", Value.str "selection"), ("min_select", Value.int a),
           ("max_select", Value.int b)] (Value.dict kvs)
        = (SubmissionValidator.apply_rules rm
            [("min_select", Value.int a), ("max_select", Value.int b)]
            (Value.dict kvs)).bind (fun es => some ([] :: es)) from rfl]
    rw [show SubmissionValidator.apply_rules rm
          [("min_select", Value.int a), ("max_select", Value.int b)]
          (Value.dict kvs)
        = (SubmissionValidator.apply_rule rm "min_select" (Value.int a)
            (Value.dict kvs)).bind
            (fun e =>
              (SubmissionValidator.apply_rules rm [("max_select", Value.int b)]
                (Value.dict kvs)).bind (fun es => some (e :: es))) from rfl]
    rw [show SubmissionValidator.apply_rules rm [("max_select", Value.int b)]
          (Value.dict kvs)
        = (SubmissionValidator.apply_rule rm "max_select" (Value.int b)
            (Value.dict kvs)).bind (fun e => some [e]) from rfl]
    rw [e1, e2]
    simp [List.append_nil]
  refine ⟨heq, ?_⟩
  rw [heq]
  by_cases h1 : trueCount kvs < a <;> by_cases h2 : trueCount kvs > b <;>
    simp [h1, h2] <;> try omega

/-- Witness for C5 at the claim's example: bounds `[1, 2]` over three
options, with one option selected, is accepted. -/
theorem claim_C5_witness :
    SubmissionValidator.validate_field (fun _ _ => true)
      [("type", .str "selection"), ("min_select", .int 1), ("max_select", .int 2)]
      (.dict [("1", .bool true), ("2", .bool false), ("3", .bool false)])
    = some [] := by
  have h := claim_C5 (fun _ _ => true) 1 2
    [("1", .bool true), ("2", .bool false), ("3", .bool false)]
    (by intro kv hkv
        simp [List.mem_cons] at hkv
        rcases hkv with h | h | h <;> exact ⟨_, by rw [h]⟩)
  exact h.2.mpr (by decide)

/-- C6: for a text field compiled with integer bounds `min_chars = mc` and
`max_chars = Mc` and a string submission value, the errors are exactly the
violated bounds, each named in its own message, so the field passes precisely
when the length (Unicode scalar count) lies in `[mc, Mc]`; in particular for
bounds `[2, 5]` the strings `""`, `"a"`, `"abcdef"` are rejected and `"ab"`,
`"abcde"` are accepted. -/
theorem claim_C6 (rm : String → String → Bool) (mc Mc : Int) (s : String) :
    SubmissionValidator.validate_field rm
      [("type", .str "text"), ("min_chars", .int mc), ("max_chars", .int Mc)]
      (.str s)
    = some ((if (s.length : Int) < mc
             then [s!"must be at least {mc} characters long"] else [])
        ++ (if (s.length : Int) > Mc
            then [s!"must be at most {Mc} characters long"] else []))
    ∧ (SubmissionValidator.validate_field rm
        [("type", .str "text"), ("min_chars", .int mc), ("max_chars", .int Mc)]
        (.str s) = some []
      ↔ mc ≤ (s.length : Int) ∧ (s.length : Int) ≤ Mc)
    ∧ SubmissionValidator.validate_field rm
        [("type", .str "text"), ("min_chars", .int 2), ("max_chars", .int 5)]
        (.str "") = some ["must be at least 2 characters long"]
    ∧ SubmissionValidator.validate_field rm
        [("type", .str "text"), ("min_chars", .int 2), ("max_chars", .int 5)]
        (.str "a") = some ["must be at least 2 characters long"]
    ∧ SubmissionValidator.validate_field rm
        [("type", .str "text"), ("min_chars", .int 2), ("max_chars", .int 5)]
        (.str "abcdef") = some ["must be at most 5 characters long"]
    ∧ SubmissionValidator.validate_field rm
        [("type", .str "text"), ("min_chars", .int 2), ("max_chars", .int 5)]
        (.str "ab") = some []
    ∧ SubmissionValidator.validate_field rm
        [("type", .str "text"), ("min_chars", .int 2), ("max_chars", .int 5)]
        (.str "abcde") = some [] := by
  have heq : SubmissionValidator.validate_field rm
      [("type", .str "text"), ("min_chars", .int mc), ("max_chars", .int Mc)]
      (.str s)
    = some ((if (s.length : Int) < mc
             then [s!"must be at least {mc} characters long"] else [])
        ++ (if (s.length : Int) > Mc
            then [s!"must be at most {Mc} characters long"] else [])) := by
    rw [Helpers.validate_field_eq rm
      [("type", Value.str "text"), ("min_chars", Value.int mc),
       ("max_chars", Value.int Mc)] (.str s) "text" rfl]
    rw [if_pos (show SubmissionValidator.type_check "text" (Value.str s) = true
      from rfl)]
    rw [show SubmissionValidator.apply_rules rm
          [("type", Value.str "text"), ("min_chars", Value.int mc),
           ("max_chars", Value.int Mc)] (.str s)
        = some [[],
            (if (s.length : Int) < mc
             then [s!"must be at least {mc} characters long"] else []),
            (if (s.length : Int) > Mc
             then [s!"must be at most {Mc} characters long"] else [])] from rfl]
    simp [List.append_nil]
  refine ⟨heq, ?_, by rfl, by rfl, by rfl, by rfl, by rfl⟩
  rw [heq]
  by_cases h1 : (s.length : Int) < mc <;> by_cases h2 : (s.length : Int) > Mc <;>
    simp [h1, h2] <;> try omega

/-- C8: for a submission value of option kind (a boolean) under a schema
entry with `mandatory = true`, field validation fails with the mandatory
error exactly when the boolean is `false`; the mandatory rule itself fires
exactly on the boolean `false` or the empty string, and with
`mandatory = false` it produces no error for any value. -/
theorem claim_C8 (rm : String → String → Bool) (b : Bool) (v : Value) :
    SubmissionValidator.validate_field rm
      [("type", .str "option"), ("mandatory", .bool true)] (.bool b)
      = some (if b then [] else ["this field is mandatory"])
    ∧ SubmissionValidator.apply_rule rm "mandatory" (.bool true) v
      = some (if SubmissionValidator.mandatory_fails v
              then ["this field is mandatory"] else [])
    ∧ (SubmissionValidator.mandatory_fails v = true
        ↔ v = .bool false ∨ v = .str "")
    ∧ SubmissionValidator.apply_rule rm "mandatory" (.bool false) v = some [] := by
  refine ⟨?_, by rfl, ?_, by rfl⟩
  · cases b <;> rfl
  · match v with
    | .bool x => cases x <;> simp [SubmissionValidator.mandatory_fails]
    | .str s => simp [SubmissionValidator.mandatory_fails]
    | .int _ | .list _ | .dict _ => simp [SubmissionValidator.mandatory_fails]

/-- A well-formed text configuration field (would satisfy the unused
`TEXT_FIELD_SCHEMA` shape). -/
def text_field_example : Value :=
  .dict [("type", .str "text"), ("title", .str "T"), ("description", .str ""),
         ("min_chars", .int 0), ("max_chars", .int 10)]

/-- A configuration whose only field is a radio carrying a text subfield. -/
def cfg_text_in_radio : Value :=
  .dict [("admin_name", .str "a"), ("survey_name", .str "s"),
         ("title", .str ""), ("description", .str ""),
         ("start", .int 0), ("end", .int 0), ("mode", .int 0),
         ("fields", .list
           [.dict [("type", .str "radio"), ("title", .str "R"),
                   ("description", .str ""),
                   ("fields", .list [text_field_example])]])]

/-- Counterexample to C1 as stated: a well-formed Text field nested inside a
Radio field's `fields` list is NOT accepted — the whole configuration is
rejected, because the radio check admits only option subfields. -/
theorem claim_C1_counterexample :
    ConfigurationValidator.validate_configuration (fun _ => true)
      cfg_text_in_radio = false := by decide

/-- C1 (amended): the configuration validator accepts at the top level of
`fields` only values whose `type` discriminant is `email`, `option` or
`radio`, and inside a Radio field's `fields` list only fields passing the
option check (discriminant `option`); fields of kind Text or Selection are
accepted nowhere, nested or not. -/
theorem claim_C1_amended (isregex : String → Bool) (f : Value)
    (kvs : List (String × Value)) (subs : List Value) :
    (ConfigurationValidator.top_field_check isregex f = true →
      ∃ fkvs, f = .dict fkvs
        ∧ (vlookup fkvs "type" = some (.str "email")
           ∨ vlookup fkvs "type" = some (.str "option")
           ∨ vlookup fkvs "type" = some (.str "radio")))
    ∧ (ConfigurationValidator.validate_type_radio (.dict kvs) = true →
       vlookup kvs "fields" = some (.list subs) →
       ∀ sub ∈ subs,
         ConfigurationValidator.validate_type_option sub = true
         ∧ ∃ skvs, sub = .dict skvs
             ∧ vlookup skvs "type" = some (.str "option")) := by
  constructor
  · intro h
    rw [ConfigurationValidator.top_field_check, Bool.or_eq_true, Bool.or_eq_true] at h
    rcases h with (he | ho) | hr
    · obtain ⟨t, d, r, hi, rfl, -⟩ := Helpers.email_decomp he
      exact ⟨_, rfl, Or.inl rfl⟩
    · obtain ⟨t, d, m, rfl, -, -⟩ := Helpers.option_decomp ho
      exact ⟨_, rfl, Or.inr (Or.inl rfl)⟩
    · obtain ⟨t, d, fields, rfl, -, -, -⟩ := Helpers.radio_decomp hr
      exact ⟨_, rfl, Or.inr (Or.inr rfl)⟩
  · intro h hsub sub hmem
    obtain ⟨t, d, fields, heq, -, -, hall⟩ := Helpers.radio_decomp h
    simp only [Value.dict.injEq] at heq
    subst heq
    rw [show vlookup [("type", Value.str "radio"), ("title", Value.str t),
          ("description", Value.str d), ("fields", Value.list fields)] "fields"
        = some (.list fields) from rfl] at hsub
    simp only [Option.some.injEq, Value.list.injEq] at hsub
    subst hsub
    have hopt := hall sub hmem
    obtain ⟨t', d', m', rfl, -, -⟩ := Helpers.option_decomp hopt
    exact ⟨hopt, _, rfl, rfl⟩

/-- Witness for the amended C1 at a concrete accepted option field. -/
theorem claim_C1_witness :
    ∃ fkvs, option_example "A" = Value.dict fkvs
      ∧ (vlookup fkvs "type" = some (.str "email")
         ∨ vlookup fkvs "type" = some (.str "option")
         ∨ vlookup fkvs "type" = some (.str "radio")) :=
  (claim_C1_amended (fun _ => true) (option_example "A") [] []).1 (by decide)

/-- Counterexample to C3 as stated: an option field whose key set equals the
required set but in a different order, with all values within bounds, is
rejected — the code compares the ordered key list, not the key set. -/
theorem claim_C3_counterexample :
    ConfigurationValidator.validate_type_option
      (.dict [("title", .str "A"), ("type", .str "option"),
              ("description", .str ""), ("mandatory", .bool false)]) = false := by
  decide

/-- C3 (amended): the structural check of a known kind accepts only if the
value's key list equals the kind's required key list in exactly its canonical
order — so a field with one extra, one missing, or a reordered key is always
rejected — and a field with the required keys in canonical order and values
within the kind's bounds is accepted (shown for the option and email kinds). -/
theorem claim_C3_amended :
    (∀ kvs, ConfigurationValidator.validate_type_option (.dict kvs) = true →
      kvs.map Prod.fst = ["type", "title", "description", "mandatory"])
    ∧ (∀ (isregex : String → Bool) kvs,
        ConfigurationValidator.validate_type_email isregex (.dict kvs) = true →
        kvs.map Prod.fst = ["type", "title", "description", "regex", "hint"])
    ∧ (∀ (t d : String) (m : Bool),
        t.length ≤ ConfigurationValidator.TITLE_MAX_LENGTH →
        d.length ≤ ConfigurationValidator.DESCRIPTION_MAX_LENGTH →
        ConfigurationValidator.validate_type_option
          (.dict [("type", .str "option"), ("title", .str t),
                  ("description", .str d), ("mandatory", .bool m)]) = true)
    ∧ (∀ (isregex : String → Bool) (t d r hi : String),
        t.length ≤ ConfigurationValidator.TITLE_MAX_LENGTH →
        d.length ≤ ConfigurationValidator.DESCRIPTION_MAX_LENGTH →
        r.length ≤ ConfigurationValidator.REGEX_MAX_LENGTH →
        isregex r = true →
        hi.length ≤ ConfigurationValidator.HINT_MAX_LENGTH →
        ConfigurationValidator.validate_type_email isregex
          (.dict [("type", .str "email"), ("title", .str t),
                  ("description", .str d), ("regex", .str r),
                  ("hint", .str hi)]) = true) := by
  refine ⟨?_, ?_, ?_, ?_⟩
  · intro kvs h
    obtain ⟨t, d, m, heq, -, -⟩ := Helpers.option_decomp h
    simp only [Value.dict.injEq] at heq
    rw [heq]
    rfl
  · intro isregex kvs h
    obtain ⟨t, d, r, hi, heq, -⟩ := Helpers.email_decomp h
    simp only [Value.dict.injEq] at heq
    rw [heq]
    rfl
  · intro t d m ht hd
    exact Helpers.option_accepts t d m ht hd
  · intro isregex t d r hi ht hd hr hir hh
    exact Helpers.email_accepts isregex t d r hi ht hd hr hir hh

/-- Witness for the amended C3 at a concrete canonical option field. -/
theorem claim_C3_witness :
    ([("type", Value.str "option"), ("title", Value.str "A"),
      ("description", Value.str ""), ("mandatory", Value.bool false)]).map Prod.fst
    = ["type", "title", "description", "mandatory"] :=
  claim_C3_amended.1
    [("type", Value.str "option"), ("title", Value.str "A"),
     ("description", Value.str ""), ("mandatory", Value.bool false)]
    (by decide)

/-- C7 (spec-modelled `isregex`): a configuration one of whose fields has the
email key list but a `regex` on which `isregex` fails (a pattern that does
not compile) is rejected by `validate_configuration` — at configuration time,
never deferred to submission handling, which this validator does not touch;
and an email field whose regex compiles and whose other attributes satisfy
their bounds passes the email structural check. -/
theorem claim_C7 (isregex : String → Bool) (kvs fkvs : List (String × Value))
    (fields : List Value) (r : String)
    (hkeys : fkvs.map Prod.fst = ["type", "title", "description", "regex", "hint"])
    (hreg : vlookup fkvs "regex" = some (.str r))
    (hbad : isregex r = false)
    (hf : vlookup kvs "fields" = some (.list fields))
    (hmem : Value.dict fkvs ∈ fields) :
    ConfigurationValidator.validate_configuration isregex (.dict kvs) = false
    ∧ ∀ (t d reg hi : String),
        t.length ≤ ConfigurationValidator.TITLE_MAX_LENGTH →
        d.length ≤ ConfigurationValidator.DESCRIPTION_MAX_LENGTH →
        reg.length ≤ ConfigurationValidator.REGEX_MAX_LENGTH →
        isregex reg = true →
        hi.length ≤ ConfigurationValidator.HINT_MAX_LENGTH →
        ConfigurationValidator.validate_type_email isregex
          (.dict [("type", .str "email"), ("title", .str t),
                  ("description", .str d), ("regex", .str reg),
                  ("hint", .str hi)]) = true := by
  have hfield :
      ConfigurationValidator.top_field_check isregex (.dict fkvs) = false := by
    cases hx : ConfigurationValidator.top_field_check isregex (.dict fkvs) with
    | false => rfl
    | true =>
        exfalso
        rw [ConfigurationValidator.top_field_check, Bool.or_eq_true,
          Bool.or_eq_true] at hx
        rcases hx with (he | ho) | hr
        · obtain ⟨t, d, r', hi, heq, -, -, -, hir, -⟩ := Helpers.email_decomp he
          simp only [Value.dict.injEq] at heq
          subst heq
          rw [show vlookup [("type", Value.str "email"), ("title", Value.str t),
                ("description", Value.str d), ("regex", Value.str r'),
                ("hint", Value.str hi)] "regex" = some (.str r') from rfl] at hreg
          simp only [Option.some.injEq, Value.str.injEq] at hreg
          subst hreg
          rw [hir] at hbad
          exact absurd hbad (by decide)
        · obtain ⟨t, d, m, heq, -, -⟩ := Helpers.option_decomp ho
          simp only [Value.dict.injEq] at heq
          subst heq
          simp at hkeys
        · obtain ⟨t, d, fields', heq, -, -, -⟩ := Helpers.radio_decomp hr
          simp only [Value.dict.injEq] at heq
          subst heq
          simp at hkeys
  constructor
  · cases hv : ConfigurationValidator.validate_configuration isregex (.dict kvs) with
    | false => rfl
    | true =>
        exfalso
        obtain ⟨kvs', fields', heq, hf', hall⟩ := Helpers.config_fields hv
        simp only [Value.dict.injEq] at heq
        subst heq
        rw [hf] at hf'
        simp only [Option.some.injEq, Value.list.injEq] at hf'
        subst hf'
        rw [hall (Value.dict fkvs) hmem] at hfield
        exact absurd hfield (by decide)
  · intro t d reg hi ht hd hr hir hh
    exact Helpers.email_accepts isregex t d reg hi ht hd hr hir hh

/-- An email configuration field whose regex is the lone `(` — invalid under
the modelled pattern test used in the witness. -/
def bad_email_field : Value :=
  .dict [("type", .str "email"), ("title", .str "E"), ("description", .str ""),
         ("regex", .str "("), ("hint", .str "")]

/-- Witness for C7: under a concrete pattern test that rejects `"("`, a full
configuration carrying `bad_email_field` is rejected at configuration time. -/
theorem claim_C7_witness :
    ConfigurationValidator.validate_configuration (fun p => !(p = "("))
      (.dict [("admin_name", .str "a"), ("survey_name", .str "s"),
              ("title", .str ""), ("description", .str ""),
              ("start", .int 0), ("end", .int 0), ("mode", .int 0),
              ("fields", .list [bad_email_field])]) = false
    ∧ ∀ (t d reg hi : String),
        t.length ≤ ConfigurationValidator.TITLE_MAX_LENGTH →
        d.length ≤ ConfigurationValidator.DESCRIPTION_MAX_LENGTH →
        reg.length ≤ ConfigurationValidator.REGEX_MAX_LENGTH →
        (fun p => !(p = "(")) reg = true →
        hi.length ≤ ConfigurationValidator.HINT_MAX_LENGTH →
        ConfigurationValidator.validate_type_email (fun p => !(p = "("))
          (.dict [("type", .str "email"), ("title", .str t),
                  ("description", .str d), ("regex", .str reg),
                  ("hint", .str hi)]) = true :=
  claim_C7 (fun p => !(p = "("))
    [("admin_name", Value.str "a"), ("survey_name", Value.str "s"),
     ("title", Value.str ""), ("description", Value.str ""),
     ("start", Value.int 0), ("end", Value.int 0), ("mode", Value.int 0),
     ("fields", Value.list [bad_email_field])]
    [("type", Value.str "email"), ("title", Value.str "E"),
     ("description", Value.str ""), ("regex", Value.str "("),
     ("hint", Value.str "")]
    [bad_email_field] "("
    (by decide) (by rfl) (by decide) (by rfl)
    (List.mem_singleton.mpr rfl)

